import Mathlib

/-!
Shallow embedding of `src/app/main.py` and `src/app/models.py` of the
my_route_api repository: a user-account and session-authentication service
(register, login, token refresh, protected route, password change) built on
symmetric-key signed bearer tokens with expiry.

Modelling conventions:
* Time is a natural number of seconds; a Python `timedelta` is its length in
  seconds; `datetime.utcnow()` is an explicit `now : Nat` parameter.
* A JWT is modelled as its decoded payload together with a signature value;
  the signature is the (secret key, algorithm, payload) triple, so signature
  verification is equality of recomputed and carried signatures, exactly the
  guarantee HMAC gives (collisions are ignored in the model).
* The wire space of candidate token strings is partitioned into the empty
  string, non-empty strings that are not serialized JWTs, and serialized
  JWTs; the only string-level operation the code performs is Python
  falsiness (`if not refresh_token`), which holds exactly for the empty
  string.
* Python exceptions become an `Except PyErr` value: `HTTPException` carries
  status and detail; `NameError`, `TypeError`, `ValueError` and
  `jose.JWTError` are separate constructors. A `try/except` block is a
  `match` on the embedded body.
* A bcrypt hash string is modelled as the hashed plaintext with its salt;
  `bcrypt.verify` accepts exactly the hashed plaintext.
* The database session is an explicit `List User` threaded through the
  routes; routes that may write return the resulting store.
-/

namespace MyRouteApi

/-- Model of a salted one-way bcrypt hash string: the plaintext it was
produced from, together with the per-call salt. Collisions are ignored, so
verify accepts exactly the hashed plaintext. -/
structure PwHash where
  hashedFrom : String
  salt : Nat
deriving DecidableEq

/-- passlib `bcrypt.hash`: salted, so two calls on the same input with
different salts yield different hash strings. -/
def bcryptHash (plaintext : String) (salt : Nat) : PwHash :=
  ⟨plaintext, salt⟩

/-- passlib `bcrypt.verify(plaintext, hash)`: true exactly when the hash was
produced from this plaintext. -/
def bcryptVerify (plaintext : String) (h : PwHash) : Bool :=
  plaintext == h.hashedFrom

/-- `models.User` (src/app/models.py): the persisted user record.
`created_at` is store-assigned metadata opaque to the auth core and is
omitted. -/
structure User where
  id : Int
  first_name : String
  last_name : String
  email : String
  password_hash : PwHash
  location : String
  home_gym : Option String
  grade_style : String
deriving DecidableEq

/-- Modelled from the spec: `schemas.UserCreate` is not under src/. Spec §3
and §6: a registration request carries email, password and the profile
fields, which are opaque to the auth core. -/
structure UserCreate where
  email : String
  password : String
  first_name : String
  last_name : String
  location : String
  home_gym : Option String
  grade_style : String
deriving DecidableEq

/-- The decoded JWT payload restricted to the claim keys the code reads:
`"sub"` (subject email), `"id"` (user id) and `"exp"` (absolute expiry).
`payload.get(k)` for an absent key is `none`. -/
structure Payload where
  sub : Option String
  id : Option Int
  exp : Option Nat
deriving DecidableEq

/-- The dict `{"email": ..., "id": ...}` returned by the verifiers. -/
structure TokenData where
  email : String
  id : Int
deriving DecidableEq

/-- Python exceptions that the embedded code can raise. -/
inductive PyErr where
  | http (status : Nat) (detail : String)
  | nameError (name : String)
  | typeError (msg : String)
  | valueError (msg : String)
deriving DecidableEq

/-- The signature a JWT carries: signing binds the secret key, the
algorithm and the signed payload. -/
def mkSig (secretKey algorithm : String) (p : Payload) : String × String × Payload :=
  (secretKey, algorithm, p)

/-- The wire space of candidate token strings, partitioned by the only
observations the code makes: Python falsiness (true exactly of the empty
string) and JWT parsing (which fails on anything that is not a serialized
JWT). A serialized JWT is never the empty string. -/
inductive TokenStr where
  | empty
  | malformed (s : String)
  | jwt (payload : Payload) (sig : String × String × Payload)
deriving DecidableEq

/-- The module-level environment configuration (src/app/main.py lines
18-22). `os.getenv` yields strings; the code converts to int only where it
explicitly calls `int(...)`. -/
structure Env where
  ALGORITHM : String
  SECRET_KEY : String
  ACCESS_TOKEN_EXPIRE_MINUTES : String
  REFRESH_TOKEN_EXPIRE_MINUTES : String
deriving DecidableEq

/-- jose `jwt.decode(token, SECRET_KEY, algorithms=[ALGORITHM])`: raises
`JWTError` (here `Except Unit`) unless the string parses as a JWT whose
signature matches the recomputed one; when an `"exp"` claim is present it
additionally raises once the expiry has passed. -/
def jwtDecode (secretKey algorithm : String) (t : TokenStr) (now : Nat) :
    Except Unit Payload :=
  match t with
  | .empty => .error ()
  | .malformed _ => .error ()
  | .jwt p sig =>
    if sig = mkSig secretKey algorithm p then
      match p.exp with
      | some e => if e < now then .error () else .ok p
      | none => .ok p
    else
      .error ()

/-- src/app/main.py lines 25-33. `expires_delta` is in seconds; Python
`if expires_delta:` is false for `None` and for a zero timedelta, in which
case the 15-minute default applies. -/
def create_access_token (env : Env) (data : Payload) (expires_delta : Option Nat)
    (now : Nat) : TokenStr :=
  let expire : Nat :=
    match expires_delta with
    | some d => if d = 0 then now + 15 * 60 else now + d
    | none => now + 15 * 60
  let to_encode : Payload := { data with exp := some expire }
  .jwt to_encode (mkSig env.SECRET_KEY env.ALGORITHM to_encode)

/-- src/app/main.py lines 35-43: identical to `create_access_token` except
for the 7-day default lifetime. -/
def create_refresh_token (env : Env) (data : Payload) (expires_delta : Option Nat)
    (now : Nat) : TokenStr :=
  let expire : Nat :=
    match expires_delta with
    | some d => if d = 0 then now + 7 * 24 * 60 * 60 else now + d
    | none => now + 7 * 24 * 60 * 60
  let to_encode : Payload := { data with exp := some expire }
  .jwt to_encode (mkSig env.SECRET_KEY env.ALGORITHM to_encode)

/-- src/app/main.py lines 45-54: decode, require the `"sub"` and `"id"`
claims, and collapse every failure to a single 401. -/
def verify_access_token (env : Env) (token : TokenStr) (now : Nat) :
    Except PyErr TokenData :=
  match jwtDecode env.SECRET_KEY env.ALGORITHM token now with
  | .error _ => .error (.http 401 "Invalid authentication token")
  | .ok payload =>
    match payload.sub, payload.id with
    | some username, some user_id => .ok ⟨username, user_id⟩
    | some _, none => .error (.http 401 "Invalid authentication token")
    | none, _ => .error (.http 401 "Invalid authentication token")

/-- src/app/main.py lines 56-65: identical to `verify_access_token` except
for the error detail string. -/
def verify_refresh_token (env : Env) (token : TokenStr) (now : Nat) :
    Except PyErr TokenData :=
  match jwtDecode env.SECRET_KEY env.ALGORITHM token now with
  | .error _ => .error (.http 401 "Invalid refresh token")
  | .ok payload =>
    match payload.sub, payload.id with
    | some username, some user_id => .ok ⟨username, user_id⟩
    | some _, none => .error (.http 401 "Invalid refresh token")
    | none, _ => .error (.http 401 "Invalid refresh token")

/-- Modelled from the spec: `crud.create_user` is not under src/. Spec §4.3
register: hash the password and insert a new record with the given email and
profile; the store assigns a fresh numeric id (spec §3). The salt of the
hash call is an explicit parameter. -/
def crudCreateUser (db : List User) (user : UserCreate) (salt : Nat) :
    User × List User :=
  let freshId : Int := (db.foldl (fun m u => max m u.id) 0) + 1
  let newUser : User :=
    { id := freshId
      first_name := user.first_name
      last_name := user.last_name
      email := user.email
      password_hash := bcryptHash user.password salt
      location := user.location
      home_gym := user.home_gym
      grade_style := user.grade_style }
  (newUser, db ++ [newUser])

/-- src/app/main.py lines 71-76, route POST /users/: reject when a user with
the same email is already stored, otherwise delegate to `crud.create_user`.
Returns the response together with the resulting store. -/
def create_user (db : List User) (user : UserCreate) (salt : Nat) :
    Except PyErr User × List User :=
  match db.find? (fun u => u.email == user.email) with
  | some _ => (.error (.http 400 "Email already registered"), db)
  | none =>
    let r := crudCreateUser db user salt
    (.ok r.1, r.2)

/-- Modelled from the spec: `crud.authenticate_user` is not under src/. Spec
§4.3 login: look up the user by email; when the user is absent or the hash
verify fails, no user is returned. -/
def authenticate_user (db : List User) (email password : String) : Option User :=
  match db.find? (fun u => u.email == email) with
  | none => none
  | some u => if bcryptVerify password u.password_hash then some u else none

/-- Python `int(s)` on a string: `ValueError` unless the string is a
numeral. -/
def pyInt (s : String) : Except PyErr Nat :=
  match s.toNat? with
  | some n => .ok n
  | none => .error (.valueError "invalid literal for int with base 10")

/-- The dict returned by the login route. -/
structure LoginResponse where
  access_token : TokenStr
  refresh_token : TokenStr
  token_type : String
deriving DecidableEq

/-- src/app/main.py lines 78-96, route POST /login/: authenticate, then
issue an access token and a refresh token whose lifetimes come from the
int-converted environment values. -/
def login (env : Env) (db : List User) (email password : String) (now : Nat) :
    Except PyErr LoginResponse := do
  match authenticate_user db email password with
  | none => .error (.http 401 "Invalid email or password")
  | some db_user =>
    let accessMinutes ← pyInt env.ACCESS_TOKEN_EXPIRE_MINUTES
    let access_token := create_access_token env
      ⟨some db_user.email, some db_user.id, none⟩ (some (accessMinutes * 60)) now
    let refreshMinutes ← pyInt env.REFRESH_TOKEN_EXPIRE_MINUTES
    let refresh_token := create_refresh_token env
      ⟨some db_user.email, some db_user.id, none⟩ (some (refreshMinutes * 60)) now
    pure ⟨access_token, refresh_token, "bearer"⟩

/-- `timedelta(minutes=x)` where `x` is the raw environment value, a str
(src/app/main.py line 109): CPython raises TypeError for a str minutes
component, whatever the string holds. -/
def timedeltaMinutesOfStr (_s : String) : Except PyErr Nat :=
  .error (.typeError "unsupported type for timedelta minutes component: str")

/-- The module defines globals ALGORITHM, SECRET_KEY,
ACCESS_TOKEN_EXPIRE_MINUTES and REFRESH_TOKEN_EXPIRE_MINUTES but no global
named REFRESH_TOKEN_EXPIRE_DAYS, so evaluating that name on
src/app/main.py line 118 raises NameError. -/
def REFRESH_TOKEN_EXPIRE_DAYS : Except PyErr Nat :=
  .error (.nameError "REFRESH_TOKEN_EXPIRE_DAYS")

/-- The body of the `try` block of the refresh route (src/app/main.py lines
104-124), in execution order: verify, build the access-token lifetime from
the raw env string, issue the access token, evaluate the undefined
REFRESH_TOKEN_EXPIRE_DAYS, issue the refresh token, return the pair. -/
def refresh_token_try (env : Env) (rt : TokenStr) (now : Nat) :
    Except PyErr (TokenStr × TokenStr) := do
  let token_data ← verify_refresh_token env rt now
  let access_token_expires ← timedeltaMinutesOfStr env.ACCESS_TOKEN_EXPIRE_MINUTES
  let new_access_token := create_access_token env
    ⟨some token_data.email, some token_data.id, none⟩ (some access_token_expires) now
  let days ← REFRESH_TOKEN_EXPIRE_DAYS
  let new_refresh_token := create_refresh_token env
    ⟨some token_data.email, some token_data.id, none⟩ (some (days * 24 * 60 * 60)) now
  pure (new_access_token, new_refresh_token)

/-- src/app/main.py lines 99-127, route POST /refresh-token/: a falsy
(empty) token is rejected with 400 before any verification; otherwise the
try body runs and any exception it raises — `HTTPException` from
verification included — is caught by `except Exception` and converted to
one 401. -/
def refresh_token (env : Env) (rt : TokenStr) (now : Nat) :
    Except PyErr (TokenStr × TokenStr) :=
  if rt = .empty then
    .error (.http 400 "Refresh token is required.")
  else
    match refresh_token_try env rt now with
    | .ok r => .ok r
    | .error _ => .error (.http 401 "Invalid or expired refresh token.")

/-- src/app/main.py line 167 calls the bare name `verify_password`, which is
neither defined in the module nor imported; evaluating it raises NameError.
Its value, were the lookup to succeed, would be a plaintext-against-hash
verifier. -/
def verify_password_lookup : Except PyErr (String → PwHash → Bool) :=
  .error (.nameError "verify_password")

/-- Modelled from the spec: `crud.change_password` is not under src/. Spec
§4.3 change_password success path: hash(new_password), persist. The salt of
the hash call is an explicit parameter. -/
def crud_change_password (db : List User) (user : User) (new_password : String)
    (salt : Nat) : List User :=
  db.map fun u =>
    if u.id = user.id then { u with password_hash := bcryptHash new_password salt } else u

/-- src/app/main.py lines 149-184, route POST /change_password/: the access
token is verified by the Security dependency (its 401 propagates); a falsy
(zero) user id is rejected 401; a missing user 404; then the current and new
passwords are checked with the function the `verify_password` name lookup
yields, and on success the change is persisted. Returns the response
together with the resulting store. -/
def change_password (env : Env) (db : List User)
    (current_password new_password : String) (token : TokenStr) (now salt : Nat) :
    Except PyErr String × List User :=
  match verify_access_token env token now with
  | .error e => (.error e, db)
  | .ok token_data =>
    if token_data.id = 0 then
      (.error (.http 401 "Invalid authentication token"), db)
    else
      match db.find? (fun u => u.id == token_data.id) with
      | none => (.error (.http 404 "User not found"), db)
      | some user =>
        match verify_password_lookup with
        | .error e => (.error e, db)
        | .ok vp =>
          if ¬ vp current_password user.password_hash then
            (.error (.http 400 "Invalid current password"), db)
          else if vp new_password user.password_hash then
            (.error (.http 400 "New password cannot be the same as the current password"), db)
          else
            (.ok "Password updated successfully",
              crud_change_password db user new_password salt)

/-- Modelled from the spec: the intended change-password flow of §4.3, which
the source cannot reach because `verify_password` is undefined in
src/app/main.py and the persisting `crud.change_password` is not under src/.
The password checks use the Password Hasher verify of §4.1 and success
hashes the new password and persists it. All other steps follow
src/app/main.py lines 149-184. -/
def change_password_spec (env : Env) (db : List User)
    (current_password new_password : String) (token : TokenStr) (now salt : Nat) :
    Except PyErr String × List User :=
  match verify_access_token env token now with
  | .error e => (.error e, db)
  | .ok token_data =>
    if token_data.id = 0 then
      (.error (.http 401 "Invalid authentication token"), db)
    else
      match db.find? (fun u => u.id == token_data.id) with
      | none => (.error (.http 404 "User not found"), db)
      | some user =>
        if ¬ bcryptVerify current_password user.password_hash then
          (.error (.http 400 "Invalid current password"), db)
        else if bcryptVerify new_password user.password_hash then
          (.error (.http 400 "New password cannot be the same as the current password"), db)
        else
          (.ok "Password updated successfully",
            crud_change_password db user new_password salt)

/-- Validity of an access token as a property of the full system state
(environment configuration plus user store). That the store argument is
unused is the embedded fact: `verify_access_token` reads only the
environment, the token and the clock. -/
def tokenValidInState (env : Env) (_db : List User) (t : TokenStr) (now : Nat)
    (c : TokenData) : Prop :=
  verify_access_token env t now = .ok c

/-- Validity of a refresh token as a property of the full system state; the
store argument is unused for the same reason as in `tokenValidInState`. -/
def refreshValidInState (env : Env) (_db : List User) (t : TokenStr) (now : Nat)
    (c : TokenData) : Prop :=
  verify_refresh_token env t now = .ok c

/-! Concrete fixtures used by counterexample and witness theorems. -/

/-- A concrete well-formed environment configuration. -/
def env0 : Env :=
  { ALGORITHM := "HS256"
    SECRET_KEY := "secret"
    ACCESS_TOKEN_EXPIRE_MINUTES := "30"
    REFRESH_TOKEN_EXPIRE_MINUTES := "10080" }

/-- A concrete stored user whose password is "pw1". -/
def user1 : User :=
  { id := 1
    first_name := "Ann"
    last_name := "Lee"
    email := "a@x.com"
    password_hash := bcryptHash "pw1" 0
    location := "UK"
    home_gym := none
    grade_style := "font" }

/-- A concrete store holding exactly `user1`. -/
def db0 : List User := [user1]

/-- A concrete complete claims payload for `user1`, expiring at time 1000. -/
def payload1 : Payload := { sub := some "a@x.com", id := some 1, exp := some 1000 }

/-- A validly signed token carrying `payload1` under `env0`. -/
def tok1 : TokenStr := .jwt payload1 (mkSig "secret" "HS256" payload1)

/-- A payload missing the subject claim. -/
def pNoSub : Payload := { sub := none, id := some 1, exp := none }

/-- A payload missing the user-id claim. -/
def pNoId : Payload := { sub := some "a@x.com", id := none, exp := none }

/-! Theorems settling the claims. -/

/-- C1: the claim states that refresh succeeds on every validly signed,
unexpired refresh token carrying email and user id, and returns InvalidToken
only when verification fails. The code contradicts it: inside the `try`,
`timedelta(minutes=ACCESS_TOKEN_EXPIRE_MINUTES)` is given the raw
environment string (TypeError) and line 118 references the undefined global
REFRESH_TOKEN_EXPIRE_DAYS (NameError), so the blanket `except Exception`
turns every call — this valid token included, whose verification is shown to
succeed — into the 401 InvalidToken response. -/
theorem c1_refresh_rejects_valid_token :
    verify_refresh_token env0 tok1 0 = .ok ⟨"a@x.com", 1⟩ ∧
    refresh_token env0 tok1 0 =
      .error (.http 401 "Invalid or expired refresh token.") := by
  constructor <;> rfl

/-- C2: the claim describes the WrongCurrentPassword / PasswordUnchanged /
Ack outcomes of change_password. The code contradicts it: line 167 calls the
bare name `verify_password`, which is neither defined in the module nor
imported, so every call that reaches the current-password check raises
NameError — here a call by the stored user with the correct current password
and a different new password, which the claim says must return Ack. -/
theorem c2_change_password_raises_name_error :
    change_password env0 db0 "pw1" "pw2" tok1 0 7 =
      (.error (.nameError "verify_password"), db0) := by
  rfl

/-- C4: issuing a token for a complete claims payload with a positive ttl
and verifying it before the ttl has elapsed returns exactly the email and
user id that were encoded; verifying after the ttl has elapsed returns the
single 401 InvalidToken error. -/
theorem c4_issue_verify_roundtrip (env : Env) (email : String) (uid : Int)
    (ttl now checkTime : Nat) (httl : 0 < ttl) :
    (checkTime < now + ttl →
      verify_access_token env
        (create_access_token env ⟨some email, some uid, none⟩ (some ttl) now)
        checkTime = .ok ⟨email, uid⟩) ∧
    (now + ttl < checkTime →
      verify_access_token env
        (create_access_token env ⟨some email, some uid, none⟩ (some ttl) now)
        checkTime = .error (.http 401 "Invalid authentication token")) := by
  have hz : ¬ ttl = 0 := by omega
  constructor
  · intro hlt
    have hne : ¬ now + ttl < checkTime := by omega
    simp [create_access_token, verify_access_token, jwtDecode, mkSig, hz, hne]
  · intro hgt
    simp [create_access_token, verify_access_token, jwtDecode, mkSig, hz, hgt]

/-- Witness for C4 at a concrete issuance: ttl 60 issued at time 0, verified
at time 30 (success with the encoded identity) and at time 100 (rejected). -/
theorem c4_issue_verify_roundtrip_witness :
    verify_access_token env0
      (create_access_token env0 ⟨some "a@x.com", some 1, none⟩ (some 60) 0) 30 =
      .ok ⟨"a@x.com", 1⟩ ∧
    verify_access_token env0
      (create_access_token env0 ⟨some "a@x.com", some 1, none⟩ (some 60) 0) 100 =
      .error (.http 401 "Invalid authentication token") :=
  ⟨(c4_issue_verify_roundtrip env0 "a@x.com" 1 60 0 30 (by decide)).1 (by decide),
   (c4_issue_verify_roundtrip env0 "a@x.com" 1 60 0 100 (by decide)).2 (by decide)⟩

/-- C9: the access-token and refresh-token verifiers agree extensionally on
success: for every token and time, access verification returns claims `c`
exactly when refresh verification returns the same claims `c` — both run the
same decode with the same secret and algorithm and require the same two
claims, so either token kind is accepted wherever the other is required. -/
theorem c9_verifiers_agree (env : Env) (t : TokenStr) (now : Nat) (c : TokenData) :
    verify_access_token env t now = .ok c ↔
      verify_refresh_token env t now = .ok c := by
  unfold verify_access_token verify_refresh_token
  cases jwtDecode env.SECRET_KEY env.ALGORITHM t now with
  | error e => simp
  | ok p =>
    rcases p with ⟨psub, pid, pexp⟩
    cases psub <;> cases pid <;> simp

/-- Helper: the defining equation of `jwtDecode` on a parsed JWT. -/
theorem jwtDecode_jwt (secretKey algorithm : String) (p : Payload)
    (sig : String × String × Payload) (now : Nat) :
    jwtDecode secretKey algorithm (.jwt p sig) now =
      if sig = mkSig secretKey algorithm p then
        match p.exp with
        | some e => if e < now then .error () else .ok p
        | none => .ok p
      else .error () := rfl

/-- Helper: a successful decode of a parsed JWT returns exactly the payload
the token carries. -/
theorem jwtDecode_ok_payload (secretKey algorithm : String) (p q : Payload)
    (sig : String × String × Payload) (now : Nat)
    (h : jwtDecode secretKey algorithm (.jwt p sig) now = .ok q) : q = p := by
  rw [jwtDecode_jwt] at h
  split at h
  · split at h
    · split at h
      · exact Except.noConfusion h
      · injection h with h2
        exact h2.symm
    · injection h with h2
      exact h2.symm
  · exact Except.noConfusion h

/-- Helper: decoding a parsed JWT whose expiry has passed fails, whatever
the signature. -/
theorem jwtDecode_expired (secretKey algorithm : String) (p : Payload)
    (sig : String × String × Payload) (now e : Nat)
    (he : p.exp = some e) (hlt : e < now) :
    jwtDecode secretKey algorithm (.jwt p sig) now = .error () := by
  rw [jwtDecode_jwt]
  split
  · simp [he, hlt]
  · rfl

/-- C3: token verification has exactly two outcomes — success with the
decoded claims, or the single 401 InvalidToken error — and each failure
cause (signature mismatch, missing subject claim, missing user-id claim,
expiry passed) produces that same error value, so the causes are
indistinguishable to the caller; the refresh verifier has the same two
outcomes with its own single error value. -/
theorem c3_verify_single_error_outcomes (env : Env) (t : TokenStr) (now : Nat) :
    ((∃ c, verify_access_token env t now = .ok c) ∨
      verify_access_token env t now =
        .error (.http 401 "Invalid authentication token")) ∧
    (∀ p sig, sig ≠ mkSig env.SECRET_KEY env.ALGORITHM p →
      verify_access_token env (.jwt p sig) now =
        .error (.http 401 "Invalid authentication token")) ∧
    (∀ p sig, p.sub = none →
      verify_access_token env (.jwt p sig) now =
        .error (.http 401 "Invalid authentication token")) ∧
    (∀ p sig, p.id = none →
      verify_access_token env (.jwt p sig) now =
        .error (.http 401 "Invalid authentication token")) ∧
    (∀ p sig e, p.exp = some e → e < now →
      verify_access_token env (.jwt p sig) now =
        .error (.http 401 "Invalid authentication token")) ∧
    ((∃ c, verify_refresh_token env t now = .ok c) ∨
      verify_refresh_token env t now =
        .error (.http 401 "Invalid refresh token")) := by
  refine ⟨?_, ?_, ?_, ?_, ?_, ?_⟩
  · unfold verify_access_token
    cases jwtDecode env.SECRET_KEY env.ALGORITHM t now with
    | error e => right; rfl
    | ok p =>
      rcases p with ⟨psub, pid, pexp⟩
      cases psub <;> cases pid <;> simp
  · intro p sig hne
    unfold verify_access_token
    rw [jwtDecode_jwt, if_neg hne]
  · intro p sig hs
    unfold verify_access_token
    rcases hd : jwtDecode env.SECRET_KEY env.ALGORITHM (TokenStr.jwt p sig) now with u | q
    · rfl
    · have hq := jwtDecode_ok_payload env.SECRET_KEY env.ALGORITHM p q sig now hd
      simp only [hq, hs]
  · intro p sig hi
    unfold verify_access_token
    rcases hd : jwtDecode env.SECRET_KEY env.ALGORITHM (TokenStr.jwt p sig) now with u | q
    · rfl
    · have hq := jwtDecode_ok_payload env.SECRET_KEY env.ALGORITHM p q sig now hd
      simp only [hq, hi]
      cases hps : Payload.sub p with
      | none => simp only [hps]
      | some v => simp only [hps]
  · intro p sig e he hlt
    unfold verify_access_token
    rw [jwtDecode_expired env.SECRET_KEY env.ALGORITHM p sig now e he hlt]
  · unfold verify_refresh_token
    cases jwtDecode env.SECRET_KEY env.ALGORITHM t now with
    | error e => right; rfl
    | ok p =>
      rcases p with ⟨psub, pid, pexp⟩
      cases psub <;> cases pid <;> simp

/-- Witness for C3: each failure cause produces the same error value at a
concrete input — a tampered signature, a payload without the subject claim,
a payload without the user-id claim, and a validly signed token verified
after its expiry. -/
theorem c3_verify_single_error_outcomes_witness :
    verify_access_token env0 (.jwt payload1 ("tampered", "HS256", payload1)) 0 =
      .error (.http 401 "Invalid authentication token") ∧
    verify_access_token env0 (.jwt pNoSub (mkSig "secret" "HS256" pNoSub)) 0 =
      .error (.http 401 "Invalid authentication token") ∧
    verify_access_token env0 (.jwt pNoId (mkSig "secret" "HS256" pNoId)) 0 =
      .error (.http 401 "Invalid authentication token") ∧
    verify_access_token env0 tok1 2000 =
      .error (.http 401 "Invalid authentication token") :=
  ⟨(c3_verify_single_error_outcomes env0 .empty 0).2.1 payload1 _ (by decide),
   (c3_verify_single_error_outcomes env0 .empty 0).2.2.1 pNoSub _ rfl,
   (c3_verify_single_error_outcomes env0 .empty 0).2.2.2.1 pNoId _ rfl,
   (c3_verify_single_error_outcomes env0 .empty 2000).2.2.2.2.1 payload1 _ 1000 rfl
     (by decide)⟩

/-- Helper: the `try` block body of the refresh route raises on every
input and at every time — verification failures raise, and when
verification succeeds the str-valued timedelta argument raises TypeError. -/
theorem refresh_token_try_isError (env : Env) (rt : TokenStr) (now : Nat) :
    ∃ e, refresh_token_try env rt now = .error e := by
  unfold refresh_token_try
  cases verify_refresh_token env rt now with
  | error e => exact ⟨e, rfl⟩
  | ok td =>
    exact ⟨.typeError "unsupported type for timedelta minutes component: str", rfl⟩

/-- C10: calling refresh with the empty-string token returns the 400
"Refresh token is required." error — the falsiness check sits before the
`try` block, so no verification runs — while every non-empty token produces
the 401 error, never a 400; thus the empty string is the only input for
which refresh answers with status 400. -/
theorem c10_refresh_empty_token_400 (env : Env) (rt : TokenStr) (now : Nat) :
    (rt = .empty →
      refresh_token env rt now = .error (.http 400 "Refresh token is required.")) ∧
    (rt ≠ .empty →
      refresh_token env rt now =
        .error (.http 401 "Invalid or expired refresh token.")) := by
  constructor
  · intro h
    subst h
    rfl
  · intro h
    unfold refresh_token
    rw [if_neg h]
    obtain ⟨e, he⟩ := refresh_token_try_isError env rt now
    rw [he]

/-- Witness for C10: the empty token yields the 400 error, and a concrete
non-empty (malformed) token yields the 401 error. -/
theorem c10_refresh_empty_token_400_witness :
    refresh_token env0 .empty 0 =
      .error (.http 400 "Refresh token is required.") ∧
    refresh_token env0 (.malformed "x") 0 =
      .error (.http 401 "Invalid or expired refresh token.") :=
  ⟨(c10_refresh_empty_token_400 env0 .empty 0).1 rfl,
   (c10_refresh_empty_token_400 env0 (.malformed "x") 0).2 (by decide)⟩

/-- Helper: the defining equation of `create_user` when some stored user
already has the requested email. -/
theorem create_user_found (db : List User) (user : UserCreate) (salt : Nat) (w : User)
    (hf : db.find? (fun v => v.email == user.email) = some w) :
    create_user db user salt = (.error (.http 400 "Email already registered"), db) := by
  unfold create_user
  rw [hf]

/-- Helper: the defining equation of `create_user` when no stored user has
the requested email. -/
theorem create_user_not_found (db : List User) (user : UserCreate) (salt : Nat)
    (hf : db.find? (fun v => v.email == user.email) = none) :
    create_user db user salt =
      (.ok (crudCreateUser db user salt).1, db ++ [(crudCreateUser db user salt).1]) := by
  unfold create_user
  rw [hf]
  rfl

/-- C5: registering an email that a stored user already has returns the
EmailTaken error and leaves the store unchanged; registering an email not in
the store succeeds and returns the created user with that email; and after a
successful registration, a second registration of the same email fails with
EmailTaken. -/
theorem c5_register_email_uniqueness (db : List User) (user : UserCreate) (salt : Nat) :
    ((∃ u ∈ db, u.email = user.email) →
      create_user db user salt = (.error (.http 400 "Email already registered"), db)) ∧
    ((∀ u ∈ db, u.email ≠ user.email) →
      ∃ newUser, create_user db user salt = (.ok newUser, db ++ [newUser]) ∧
        newUser.email = user.email) ∧
    (∀ db2 u1 (user2 : UserCreate) (salt2 : Nat),
      create_user db user salt = (.ok u1, db2) → user2.email = user.email →
      (create_user db2 user2 salt2).1 =
        .error (.http 400 "Email already registered")) := by
  refine ⟨?_, ?_, ?_⟩
  · rintro ⟨u, hu, he⟩
    cases hf : db.find? (fun v => v.email == user.email) with
    | none => exact absurd (by simp [he]) (List.find?_eq_none.mp hf u hu)
    | some w => exact create_user_found db user salt w hf
  · intro h
    have hf : db.find? (fun v => v.email == user.email) = none :=
      List.find?_eq_none.mpr fun x hx => by simp [h x hx]
    exact ⟨(crudCreateUser db user salt).1, create_user_not_found db user salt hf, rfl⟩
  · intro db2 u1 user2 salt2 hok he2
    cases hf : db.find? (fun v => v.email == user.email) with
    | some w =>
      rw [create_user_found db user salt w hf] at hok
      exact Except.noConfusion (congrArg Prod.fst hok)
    | none =>
      rw [create_user_not_found db user salt hf] at hok
      have hdb2 : db2 = db ++ [(crudCreateUser db user salt).1] :=
        (congrArg Prod.snd hok).symm
      cases hf2 : db2.find? (fun v => v.email == user2.email) with
      | some w2 => rw [create_user_found db2 user2 salt2 w2 hf2]
      | none =>
        have hmem : (crudCreateUser db user salt).1 ∈ db2 := by
          rw [hdb2]
          simp
        exact absurd (by simp [crudCreateUser, he2])
          (List.find?_eq_none.mp hf2 _ hmem)

/-- Witness for C5: with `user1` (email "a@x.com") in the store, registering
"a@x.com" again returns the EmailTaken error and the store is unchanged. -/
theorem c5_register_email_uniqueness_witness :
    create_user db0
      { email := "a@x.com", password := "pw2", first_name := "Bo", last_name := "Kim"
        location := "FR", home_gym := none, grade_style := "v" } 5 =
      (.error (.http 400 "Email already registered"), db0) :=
  (c5_register_email_uniqueness db0
    { email := "a@x.com", password := "pw2", first_name := "Bo", last_name := "Kim"
      location := "FR", home_gym := none, grade_style := "v" } 5).1
    ⟨user1, by simp [db0], rfl⟩

/-- C6: a failed login returns the one generic InvalidCredentials error
whether the email is absent from the store or the password fails hash
verification against the stored hash — the same error value in both cases,
so the causes are indistinguishable in the result. -/
theorem c6_login_single_invalid_credentials (env : Env) (db : List User)
    (email password : String) (now : Nat) :
    ((∀ u ∈ db, u.email ≠ email) →
      login env db email password now =
        .error (.http 401 "Invalid email or password")) ∧
    (∀ u, db.find? (fun v => v.email == email) = some u →
      bcryptVerify password u.password_hash = false →
      login env db email password now =
        .error (.http 401 "Invalid email or password")) := by
  constructor
  · intro h
    have hf : db.find? (fun v => v.email == email) = none :=
      List.find?_eq_none.mpr fun x hx => by simp [h x hx]
    unfold login authenticate_user
    rw [hf]
  · intro u hf hv
    unfold login authenticate_user
    rw [hf]
    simp [hv]

/-- Witness for C6: under the store holding only `user1` (email "a@x.com",
password "pw1"), login with an unknown email and login with the right email
but wrong password both return the same 401 error. -/
theorem c6_login_single_invalid_credentials_witness :
    login env0 db0 "z@x.com" "pw1" 0 =
      .error (.http 401 "Invalid email or password") ∧
    login env0 db0 "a@x.com" "wrong" 0 =
      .error (.http 401 "Invalid email or password") :=
  ⟨(c6_login_single_invalid_credentials env0 db0 "z@x.com" "pw1" 0).1
      (by intro u hu; simp [db0, user1] at hu; simp [hu]),
   (c6_login_single_invalid_credentials env0 db0 "a@x.com" "wrong" 0).2 user1 rfl rfl⟩

/-- C7: a successful (spec-modelled, see `change_password_spec`) password
change does not invalidate any previously issued token: access- and
refresh-token validity, stated over the full system state, is preserved with
the same claims by the store the change produces, because the verifiers read
only the environment, the token and the clock, never the stored password
hash. -/
theorem c7_password_change_preserves_tokens (env : Env) (db : List User)
    (cur new : String) (tok : TokenStr) (now salt : Nat) (db2 : List User)
    (msg : String)
    (_hchange : change_password_spec env db cur new tok now salt = (.ok msg, db2))
    (t : TokenStr) (tnow : Nat) (c : TokenData) :
    (tokenValidInState env db t tnow c → tokenValidInState env db2 t tnow c) ∧
    (refreshValidInState env db t tnow c → refreshValidInState env db2 t tnow c) :=
  ⟨fun h => h, fun h => h⟩

/-- Witness for C7: `user1` changes password from "pw1" to "pw2"
successfully; the access token `tok1` issued before the change is still
valid with the same claims against the changed store. -/
theorem c7_password_change_preserves_tokens_witness :
    tokenValidInState env0 [{ user1 with password_hash := bcryptHash "pw2" 3 }]
      tok1 0 ⟨"a@x.com", 1⟩ ∧
    refreshValidInState env0 [{ user1 with password_hash := bcryptHash "pw2" 3 }]
      tok1 0 ⟨"a@x.com", 1⟩ :=
  ⟨(c7_password_change_preserves_tokens env0 db0 "pw1" "pw2" tok1 0 3
      [{ user1 with password_hash := bcryptHash "pw2" 3 }]
      "Password updated successfully" rfl tok1 0 ⟨"a@x.com", 1⟩).1 rfl,
   (c7_password_change_preserves_tokens env0 db0 "pw1" "pw2" tok1 0 3
      [{ user1 with password_hash := bcryptHash "pw2" 3 }]
      "Password updated successfully" rfl tok1 0 ⟨"a@x.com", 1⟩).2 rfl⟩

/-- Helper: the change-password route returns the store it was given on
every path — its only writing branch sits after the `verify_password` name
lookup, which always raises. -/
theorem change_password_store_unchanged (env : Env) (db : List User)
    (cur new : String) (tok : TokenStr) (now salt : Nat) :
    (change_password env db cur new tok now salt).2 = db := by
  unfold change_password
  split
  · rfl
  · split
    · rfl
    · split
      · rfl
      · split
        · rfl
        · rename_i heq
          simp [verify_password_lookup] at heq

/-- C8: whenever the change-password route returns an error — any error —
the store it returns is exactly the store it was given: no error path
performs a write, partial or otherwise. -/
theorem c8_change_password_error_atomic (env : Env) (db : List User)
    (cur new : String) (tok : TokenStr) (now salt : Nat) (e : PyErr)
    (_h : (change_password env db cur new tok now salt).1 = .error e) :
    (change_password env db cur new tok now salt).2 = db :=
  change_password_store_unchanged env db cur new tok now salt

/-- Witness for C8: a change-password call whose token fails verification
returns the 401 error and the store unchanged. -/
theorem c8_change_password_error_atomic_witness :
    (change_password env0 db0 "pw1" "pw2" (.malformed "x") 0 0).2 = db0 :=
  c8_change_password_error_atomic env0 db0 "pw1" "pw2" (.malformed "x") 0 0
    (.http 401 "Invalid authentication token") rfl

end MyRouteApi
